import Mathlib

/-!
Verification development for the Multirole webhook-driven git mirroring core:
`GitRepo` (GitRepo.cpp) and `WebhookEndpoint` (WebhookEndpoint.cpp).

The stateful C++ code is shallowly embedded as pure functions over explicit
state. The mirror's on-disk state is abstracted to the pair of revisions
`HEAD` / `FETCH_HEAD` (the only parts of the repository the trigger handler
reads or writes); the libgit2 operations that may fail are driven by an
environment recording, for one cycle, whether each operation fails and what
the remote serves. Side effects (log lines, observer callbacks, git
operations) are reified as an ordered event trace.
-/

namespace Multirole

/-- File-level diff as produced per sync cycle: ordered added and removed
path lists (the `GitDiff` aggregate filled by `GitRepo::GetFilesDiff`). -/
structure GitDiff where
  added : List String
  removed : List String
deriving DecidableEq

/-- One changed-blob record delivered by the libgit2 tree-to-tree diff walk
(`git_diff_delta`): the blob ids of the old and the new side (`0` encodes the
null oid, i.e. the blob is absent on that side, as tested by
`git_oid_iszero`) and the corresponding paths. -/
structure GitDelta where
  oldId : Nat
  newId : Nat
  oldPath : String
  newPath : String
deriving DecidableEq

/-- Mirror state: the currently checked-out revision (`HEAD`) and the
revision last recorded by a fetch (`FETCH_HEAD`), each named by a `Nat`. -/
structure RepoState where
  head : Nat
  fetchHead : Nat
deriving DecidableEq

/-- Environment of one trigger cycle: whether each git operation fails when
attempted, the revision a successful fetch records into `FETCH_HEAD`, and the
delta list `git_diff_tree_to_tree` yields for a given pair of revisions. -/
structure Env where
  fetchFails : Bool
  diffFails : Bool
  resetFails : Bool
  remoteHead : Nat
  deltasOf : Nat → Nat → List GitDelta

/-- Observable events emitted by the engine, in order. -/
inductive Event where
  | logInfo (msg : String)
  | logError (msg : String)
  | fetched (fetchHead : Nat)
  | diffComputed (oldHead newHead : Nat)
  | resetTo (head : Nat)
  | onDiff (obs : Nat) (root : String) (diff : GitDiff)
  | onAdd (obs : Nat) (root : String) (files : List String)
deriving DecidableEq

/-- I18N::GIT_REPO_WEBHOOK_TRIGGERED -/
def MSG_TRIGGERED : String := "GIT_REPO_WEBHOOK_TRIGGERED"

/-- I18N::GIT_REPO_WEBHOOK_NO_TOKEN -/
def MSG_NO_TOKEN : String := "GIT_REPO_WEBHOOK_NO_TOKEN"

/-- I18N::GIT_REPO_FINISHED_UPDATING -/
def MSG_FINISHED : String := "GIT_REPO_FINISHED_UPDATING"

/-- I18N::GIT_REPO_UPDATE_EXCEPT -/
def MSG_EXCEPT : String := "GIT_REPO_UPDATE_EXCEPT"

/-- The token gate of `GitRepo::Callback`:
`payload.find(token) != std::string_view::npos`, i.e. the token occurs
contiguously (as a substring) somewhere in the payload. -/
def substrFound (payload token : String) : Prop :=
  token.toList <:+: payload.toList

instance (payload token : String) : Decidable (substrFound payload token) :=
  inferInstanceAs (Decidable (token.toList <:+: payload.toList))

/-- `GitRepo::Fetch`: `git fetch` — on success records the remote's current
revision into `FETCH_HEAD`; the working tree (`HEAD`) is untouched. -/
def Fetch (env : Env) (st : RepoState) : Except String RepoState :=
  if env.fetchFails then .error "fetch" else .ok { st with fetchHead := env.remoteHead }

/-- `GitRepo::ResetToFetchHead`: `git reset --hard FETCH_HEAD` — on success
moves `HEAD` to the revision recorded in `FETCH_HEAD`. -/
def ResetToFetchHead (env : Env) (st : RepoState) : Except String RepoState :=
  if env.resetFails then .error "reset" else .ok { st with head := st.fetchHead }

/-- `FileCb`, the per-delta callback inside `GitRepo::GetFilesDiff`: an old
side with the null oid puts the new path into `added`; a new side with the
null oid puts the old path into `removed`; otherwise both the old path goes
to `removed` and the new path to `added`. -/
def FileCb (diff : GitDiff) (d : GitDelta) : GitDiff :=
  if d.oldId = 0 then
    { diff with added := diff.added ++ [d.newPath] }
  else if d.newId = 0 then
    { diff with removed := diff.removed ++ [d.oldPath] }
  else
    { diff with removed := diff.removed ++ [d.oldPath], added := diff.added ++ [d.newPath] }

/-- `GitRepo::GetFilesDiff`'s accumulation: `git_diff_foreach` folds `FileCb`
over the deltas of the tree-to-tree diff, starting from an empty `GitDiff`. -/
def GetFilesDiff (deltas : List GitDelta) : GitDiff :=
  deltas.foldl FileCb ⟨[], []⟩

/-- `GitRepo::GetFilesDiff` as a fallible step: the deltas are those of
`git_diff_tree_to_tree` between the trees of `HEAD` and `FETCH_HEAD` of the
current state (any `Git::Check` failure inside collapses to the single
failure flag). -/
def GetFilesDiffE (env : Env) (st : RepoState) : Except String GitDiff :=
  if env.diffFails then .error "diff"
  else .ok (GetFilesDiff (env.deltasOf st.head st.fetchHead))

/-- The try block of `GitRepo::Callback`: `Fetch(); diff := GetFilesDiff();
ResetToFetchHead();` log completion, then notify every observer in
registration order when either diff list is non-empty. A thrown error
carries the state and the events accumulated before the throw. -/
def CallbackTry (path : String) (observers : List Nat) (env : Env) (st : RepoState) :
    Except (RepoState × List Event) (RepoState × List Event) :=
  match Fetch env st with
  | .error _ => .error (st, [])
  | .ok st1 =>
    match GetFilesDiffE env st1 with
    | .error _ => .error (st1, [Event.fetched st1.fetchHead])
    | .ok diff =>
      match ResetToFetchHead env st1 with
      | .error _ =>
        .error (st1, [Event.fetched st1.fetchHead, Event.diffComputed st1.head st1.fetchHead])
      | .ok st2 =>
        .ok (st2,
          [Event.fetched st1.fetchHead, Event.diffComputed st1.head st1.fetchHead,
           Event.resetTo st1.fetchHead, Event.logInfo MSG_FINISHED] ++
          (if !diff.removed.isEmpty || !diff.added.isEmpty then
            observers.map (fun o => Event.onDiff o path diff)
          else []))

/-- `GitRepo::Callback`, the webhook trigger handler: log the trigger; if the
payload does not contain the token, log the rejection and return; otherwise
run the try block, catching any failure as a logged error. Total: no failure
propagates to the caller. -/
def Callback (token path : String) (observers : List Nat) (env : Env)
    (payload : String) (st : RepoState) : RepoState × List Event :=
  if ¬ substrFound payload token then
    (st, [Event.logInfo MSG_TRIGGERED, Event.logError MSG_NO_TOKEN])
  else
    match CallbackTry path observers env st with
    | .ok (st2, evs) => (st2, Event.logInfo MSG_TRIGGERED :: evs)
    | .error (stE, evs) =>
      (stE, Event.logInfo MSG_TRIGGERED :: (evs ++ [Event.logError MSG_EXCEPT]))

/-- Predicate selecting observer-notification events from a trace. -/
def isOnDiffEvent : Event → Bool
  | .onDiff _ _ _ => true
  | _ => false

/-- The observer-notification events of a trace, in order. -/
def onDiffEvents (evs : List Event) : List Event :=
  evs.filter isOnDiffEvent

/-- `GitRepo::GetTrackedFiles`: `git ls-files` — walks the index entries by
increasing index position and collects each entry's path. -/
def GetTrackedFiles (index : List String) : List String :=
  index.foldl (fun pv e => pv ++ [e]) []

/-- `GitRepo::AddObserver`: appends the observer to the list, then, when the
tracked-file list is non-empty, invokes `obs.OnAdd(path, pv)` before
returning. Returns the new observer list and the emitted events. -/
def AddObserver (observers : List Nat) (index : List String) (path : String)
    (obs : Nat) : List Nat × List Event :=
  let observers2 := observers ++ [obs]
  let pv := GetTrackedFiles index
  if !pv.isEmpty then (observers2, [Event.onAdd obs path pv])
  else (observers2, [])

/-- `NormalizeDirPath`: appends a `/` when the guard
`tmp.back() != '/' || tmp.back() != '\\'` holds (the last character is
queried with `getLast?`; the source requires a non-empty input for
`tmp.back()` to be defined). -/
def NormalizeDirPath (s : List Char) : List Char :=
  if (s.getLast? != some '/') || (s.getLast? != some '\\') then s ++ ['/'] else s

/-- The C++ `std::string(count, ch)` constructor: a string of `count` copies
of the byte `ch` (bytes as `Nat` mod 256). -/
def stdStringCountFill (count : Nat) (fill : Nat) : List Nat :=
  List.replicate count (fill % 256)

/-- The first argument of `std::make_shared<std::string>(' ', 255)` in
`WebhookEndpoint::DoReadHeader`: the character literal `' '` converts to the
`size_type count` parameter, yielding its code point. -/
def spaceCode : Nat := Char.toNat ' '

/-- The payload buffer allocated by `WebhookEndpoint::DoReadHeader` and
offered to `async_read_some`: `std::string(' ', 255)` resolves to the
`(count, ch)` constructor with `count = ' ' = 32` and `ch = (char)255`. -/
def payloadBuffer : List Nat := stdStringCountFill spaceCode 255

/-- The byte budget of the single socket read: the size of the buffer
offered to `async_read_some`. -/
def readBudget : Nat := payloadBuffer.length

/-- The characters of the acknowledgement string literal
`"HTTP/1.0 200 OK\r\n"` (17 characters before the terminator). -/
def ackLiteralChars : List Char := "HTTP/1.0 200 OK\r\n".toList

/-- The array object backing that C++ string literal: its characters plus
the terminating null character. -/
def ackLiteralArray : List Char := ackLiteralChars ++ [Char.ofNat 0]

/-- The bytes `asio::write(*socPtr, asio::buffer("HTTP/1.0 200 OK\r\n"))`
sends: `asio::buffer` over a `char` array spans the whole array (terminator
included) and `asio::write` transfers the complete buffer. -/
def ackBytesWritten : List Char := ackLiteralArray

/-- The read-completion handler of `WebhookEndpoint::DoReadHeader`: on a read
error, return without writing or dispatching; otherwise write the
acknowledgement, append the guaranteeing null terminator to the payload, and
invoke the callback (`GitRepo::Callback` in this system). Returns the bytes
written to the socket together with the engine's result. -/
def DoReadHeaderHandler (token path : String) (observers : List Nat) (env : Env)
    (st : RepoState) (readErr : Bool) (payload : String) :
    List Char × RepoState × List Event :=
  if readErr then ([], st, [])
  else
    let r := Callback token path observers env (payload.push (Char.ofNat 0)) st
    (ackBytesWritten, r.1, r.2)

/-! Helper lemmas: the four computation branches of `Callback`. -/

lemma callback_reject (token path : String) (observers : List Nat) (env : Env)
    (payload : String) (st : RepoState) (h : ¬ substrFound payload token) :
    Callback token path observers env payload st =
      (st, [Event.logInfo MSG_TRIGGERED, Event.logError MSG_NO_TOKEN]) := by
  unfold Callback
  rw [if_pos h]

lemma callback_fetch_fail (token path : String) (observers : List Nat) (env : Env)
    (payload : String) (st : RepoState) (hTok : substrFound payload token)
    (hF : env.fetchFails = true) :
    Callback token path observers env payload st =
      (st, [Event.logInfo MSG_TRIGGERED, Event.logError MSG_EXCEPT]) := by
  unfold Callback CallbackTry Fetch
  rw [if_neg (not_not_intro hTok), hF]
  rfl

lemma callback_diff_fail (token path : String) (observers : List Nat) (env : Env)
    (payload : String) (st : RepoState) (hTok : substrFound payload token)
    (hF : env.fetchFails = false) (hD : env.diffFails = true) :
    Callback token path observers env payload st =
      (⟨st.head, env.remoteHead⟩,
       [Event.logInfo MSG_TRIGGERED, Event.fetched env.remoteHead,
        Event.logError MSG_EXCEPT]) := by
  unfold Callback CallbackTry Fetch GetFilesDiffE
  rw [if_neg (not_not_intro hTok), hF, hD]
  rfl

lemma callback_reset_fail (token path : String) (observers : List Nat) (env : Env)
    (payload : String) (st : RepoState) (hTok : substrFound payload token)
    (hF : env.fetchFails = false) (hD : env.diffFails = false)
    (hR : env.resetFails = true) :
    Callback token path observers env payload st =
      (⟨st.head, env.remoteHead⟩,
       [Event.logInfo MSG_TRIGGERED, Event.fetched env.remoteHead,
        Event.diffComputed st.head env.remoteHead, Event.logError MSG_EXCEPT]) := by
  unfold Callback CallbackTry Fetch GetFilesDiffE ResetToFetchHead
  rw [if_neg (not_not_intro hTok), hF, hD, hR]
  rfl

lemma callback_success (token path : String) (observers : List Nat) (env : Env)
    (payload : String) (st : RepoState) (hTok : substrFound payload token)
    (hF : env.fetchFails = false) (hD : env.diffFails = false)
    (hR : env.resetFails = false) :
    Callback token path observers env payload st =
      (⟨env.remoteHead, env.remoteHead⟩,
       [Event.logInfo MSG_TRIGGERED, Event.fetched env.remoteHead,
        Event.diffComputed st.head env.remoteHead, Event.resetTo env.remoteHead,
        Event.logInfo MSG_FINISHED] ++
       (if !(GetFilesDiff (env.deltasOf st.head env.remoteHead)).removed.isEmpty ||
           !(GetFilesDiff (env.deltasOf st.head env.remoteHead)).added.isEmpty then
          observers.map
            (fun o => Event.onDiff o path (GetFilesDiff (env.deltasOf st.head env.remoteHead)))
        else [])) := by
  unfold Callback CallbackTry Fetch GetFilesDiffE ResetToFetchHead
  rw [if_neg (not_not_intro hTok), hF, hD, hR]
  rfl

/-! Concrete cycle environments used by the witnesses. -/

/-- Concrete environment with no failing operation: fetch serves revision 9
and the tree-to-tree diff walk yields one added and one removed blob. -/
def envOk : Env :=
  ⟨false, false, false, 9, fun _ _ => [⟨0, 5, "", "c.txt"⟩, ⟨3, 0, "a.txt", ""⟩]⟩

/-- Concrete environment whose fetch fails. -/
def envFetchFail : Env := ⟨true, false, false, 9, fun _ _ => []⟩

/-- C1: for every payload that does not contain the configured webhook token
as a substring, the trigger handler `GitRepo::Callback` leaves the mirror
state unchanged, performs no fetch, computes no diff, performs no reset,
invokes no observer callback, and merely logs the trigger and the rejection,
returning normally with no error surfaced to the caller. -/
theorem unauthorized_trigger_is_inert (token path : String) (observers : List Nat)
    (env : Env) (payload : String) (st : RepoState)
    (h : ¬ substrFound payload token) :
    Callback token path observers env payload st =
      (st, [Event.logInfo MSG_TRIGGERED, Event.logError MSG_NO_TOKEN]) ∧
    onDiffEvents (Callback token path observers env payload st).2 = [] ∧
    (∀ k, Event.fetched k ∉ (Callback token path observers env payload st).2) ∧
    (∀ a b, Event.diffComputed a b ∉ (Callback token path observers env payload st).2) ∧
    (∀ k, Event.resetTo k ∉ (Callback token path observers env payload st).2) ∧
    Event.logError MSG_NO_TOKEN ∈ (Callback token path observers env payload st).2 := by
  rw [callback_reject token path observers env payload st h]
  refine ⟨rfl, ?_, ?_, ?_, ?_, ?_⟩ <;> simp [onDiffEvents, isOnDiffEvent]

/-- Witness: a concrete unauthorized payload is rejected with the mirror
state untouched. -/
theorem unauthorized_trigger_is_inert_witness :
    ¬ substrFound "POST /hook HTTP/1.0" "sekrit" ∧
    Callback "sekrit" "./repo/" [1, 2] envOk "POST /hook HTTP/1.0" ⟨1, 1⟩ =
      (⟨1, 1⟩, [Event.logInfo MSG_TRIGGERED, Event.logError MSG_NO_TOKEN]) :=
  ⟨by decide, (unauthorized_trigger_is_inert "sekrit" "./repo/" [1, 2] envOk
      "POST /hook HTTP/1.0" ⟨1, 1⟩ (by decide)).1⟩

/-- C2: when the payload is authorized but fetch, diff computation, or reset
fails, the cycle aborts: the checked-out head is unchanged (reset does not
occur), no observer is notified, the failure is logged, and the handler
returns normally — a subsequent authorized trigger in a non-failing
environment completes all the way to its reset. -/
theorem failing_cycle_aborts (token path : String) (observers : List Nat)
    (env : Env) (payload : String) (st : RepoState)
    (hTok : substrFound payload token)
    (hFail : env.fetchFails = true ∨ env.diffFails = true ∨ env.resetFails = true) :
    (Callback token path observers env payload st).1.head = st.head ∧
    onDiffEvents (Callback token path observers env payload st).2 = [] ∧
    (∀ k, Event.resetTo k ∉ (Callback token path observers env payload st).2) ∧
    Event.logError MSG_EXCEPT ∈ (Callback token path observers env payload st).2 ∧
    (∀ env2 payload2, substrFound payload2 token →
      env2.fetchFails = false → env2.diffFails = false → env2.resetFails = false →
      Event.resetTo env2.remoteHead ∈
        (Callback token path observers env2 payload2
          (Callback token path observers env payload st).1).2) := by
  have hcont : ∀ (st' : RepoState), ∀ env2 payload2, substrFound payload2 token →
      env2.fetchFails = false → env2.diffFails = false → env2.resetFails = false →
      Event.resetTo env2.remoteHead ∈
        (Callback token path observers env2 payload2 st').2 := by
    intro st' env2 payload2 h2 hf hd hr
    rw [callback_success token path observers env2 payload2 st' h2 hf hd hr]
    simp
  cases hF : env.fetchFails with
  | true =>
    rw [callback_fetch_fail token path observers env payload st hTok hF]
    exact ⟨rfl, by simp [onDiffEvents, isOnDiffEvent], by simp, by simp, hcont st⟩
  | false =>
    cases hD : env.diffFails with
    | true =>
      rw [callback_diff_fail token path observers env payload st hTok hF hD]
      exact ⟨rfl, by simp [onDiffEvents, isOnDiffEvent], by simp, by simp,
        hcont ⟨st.head, env.remoteHead⟩⟩
    | false =>
      cases hR : env.resetFails with
      | true =>
        rw [callback_reset_fail token path observers env payload st hTok hF hD hR]
        exact ⟨rfl, by simp [onDiffEvents, isOnDiffEvent], by simp, by simp,
          hcont ⟨st.head, env.remoteHead⟩⟩
      | false =>
        exfalso
        rcases hFail with h | h | h <;> simp_all

/-- Witness: a concrete authorized trigger whose fetch fails leaves the
checked-out head where it was. -/
theorem failing_cycle_aborts_witness :
    substrFound "x sekrit y" "sekrit" ∧ envFetchFail.fetchFails = true ∧
    (Callback "sekrit" "./repo/" [1, 2] envFetchFail "x sekrit y" ⟨1, 1⟩).1.head = 1 :=
  ⟨by decide, rfl,
    (failing_cycle_aborts "sekrit" "./repo/" [1, 2] envFetchFail "x sekrit y" ⟨1, 1⟩
      (by decide) (Or.inl rfl)).1⟩

/-! Fold lemmas for the per-delta classification of `GetFilesDiff`. -/

lemma mem_added_foldl (ds : List GitDelta) (acc : GitDiff) (p : String)
    (h : p ∈ acc.added) : p ∈ (ds.foldl FileCb acc).added := by
  induction ds generalizing acc with
  | nil => simpa using h
  | cons d ds ih =>
    rw [List.foldl_cons]
    refine ih (FileCb acc d) ?_
    unfold FileCb
    split_ifs <;> simp [h]

lemma mem_removed_foldl (ds : List GitDelta) (acc : GitDiff) (p : String)
    (h : p ∈ acc.removed) : p ∈ (ds.foldl FileCb acc).removed := by
  induction ds generalizing acc with
  | nil => simpa using h
  | cons d ds ih =>
    rw [List.foldl_cons]
    refine ih (FileCb acc d) ?_
    unfold FileCb
    split_ifs <;> simp [h]

lemma delta_classified_foldl (ds : List GitDelta) (acc : GitDiff) (d : GitDelta)
    (hmem : d ∈ ds) :
    (d.oldId = 0 → d.newPath ∈ (ds.foldl FileCb acc).added) ∧
    (d.oldId ≠ 0 → d.newId = 0 → d.oldPath ∈ (ds.foldl FileCb acc).removed) ∧
    (d.oldId ≠ 0 → d.newId ≠ 0 →
      d.oldPath ∈ (ds.foldl FileCb acc).removed ∧
      d.newPath ∈ (ds.foldl FileCb acc).added) := by
  induction ds generalizing acc with
  | nil => cases hmem
  | cons e es ih =>
    rw [List.foldl_cons]
    rcases List.mem_cons.mp hmem with rfl | hmem'
    · refine ⟨?_, ?_, ?_⟩
      · intro h0
        refine mem_added_foldl es (FileCb acc d) d.newPath ?_
        unfold FileCb
        rw [if_pos h0]
        simp
      · intro h0 h1
        refine mem_removed_foldl es (FileCb acc d) d.oldPath ?_
        unfold FileCb
        rw [if_neg h0, if_pos h1]
        simp
      · intro h0 h1
        refine ⟨mem_removed_foldl es (FileCb acc d) d.oldPath ?_,
          mem_added_foldl es (FileCb acc d) d.newPath ?_⟩ <;>
        · unfold FileCb
          rw [if_neg h0, if_neg h1]
          simp
    · exact ih (FileCb acc e) hmem'

/-- C3: every changed blob between the old and the new tree is classified by
its old/new blob identity: present only in the new tree contributes the new
path to `added`; present only in the old tree contributes the old path to
`removed`; present in both trees but with different blobs contributes the
old path to `removed` and the new path to `added` — never an in-place
update. -/
theorem diff_classifies_deltas (deltas : List GitDelta) (d : GitDelta)
    (hmem : d ∈ deltas) :
    (d.oldId = 0 → d.newId ≠ 0 → d.newPath ∈ (GetFilesDiff deltas).added) ∧
    (d.oldId ≠ 0 → d.newId = 0 → d.oldPath ∈ (GetFilesDiff deltas).removed) ∧
    (d.oldId ≠ 0 → d.newId ≠ 0 → d.oldId ≠ d.newId →
      d.oldPath ∈ (GetFilesDiff deltas).removed ∧
      d.newPath ∈ (GetFilesDiff deltas).added) := by
  have h := delta_classified_foldl deltas ⟨[], []⟩ d hmem
  exact ⟨fun h0 _ => h.1 h0, h.2.1, fun h0 h1 _ => h.2.2 h0 h1⟩

/-- Witness: in a concrete delta list, a blob present in both trees with
different ids lands on both sides. -/
theorem diff_classifies_deltas_witness :
    (⟨3, 4, "a.txt", "b.txt"⟩ : GitDelta) ∈
      ([⟨0, 5, "", "new.txt"⟩, ⟨7, 0, "old.txt", ""⟩, ⟨3, 4, "a.txt", "b.txt"⟩] :
        List GitDelta) ∧
    ("a.txt" ∈ (GetFilesDiff [⟨0, 5, "", "new.txt"⟩, ⟨7, 0, "old.txt", ""⟩,
        ⟨3, 4, "a.txt", "b.txt"⟩]).removed ∧
     "b.txt" ∈ (GetFilesDiff [⟨0, 5, "", "new.txt"⟩, ⟨7, 0, "old.txt", ""⟩,
        ⟨3, 4, "a.txt", "b.txt"⟩]).added) :=
  ⟨by decide,
    (diff_classifies_deltas
      [⟨0, 5, "", "new.txt"⟩, ⟨7, 0, "old.txt", ""⟩, ⟨3, 4, "a.txt", "b.txt"⟩]
      ⟨3, 4, "a.txt", "b.txt"⟩ (by decide)).2.2 (by decide) (by decide) (by decide)⟩

/-- C4: in a successful sync cycle, when either diff list is non-empty the
trace's observer notifications are exactly one `OnDiff` per registered
observer, in registration order, all carrying the cycle's diff; when both
lists are empty, no observer notification occurs. -/
theorem successful_cycle_notifies (token path : String) (observers : List Nat)
    (env : Env) (payload : String) (st : RepoState)
    (hTok : substrFound payload token)
    (hF : env.fetchFails = false) (hD : env.diffFails = false)
    (hR : env.resetFails = false) :
    onDiffEvents (Callback token path observers env payload st).2 =
      (if !(GetFilesDiff (env.deltasOf st.head env.remoteHead)).removed.isEmpty ||
          !(GetFilesDiff (env.deltasOf st.head env.remoteHead)).added.isEmpty then
        observers.map
          (fun o => Event.onDiff o path (GetFilesDiff (env.deltasOf st.head env.remoteHead)))
      else []) := by
  have hmapfix : ∀ (os : List Nat) (dd : GitDiff),
      List.filter isOnDiffEvent (os.map (fun o => Event.onDiff o path dd)) =
        os.map (fun o => Event.onDiff o path dd) := by
    intro os dd
    induction os with
    | nil => rfl
    | cons o os ih => simp [isOnDiffEvent, ih]
  rw [callback_success token path observers env payload st hTok hF hD hR]
  unfold onDiffEvents
  split
  · rw [List.filter_append]
    rw [hmapfix observers (GetFilesDiff (env.deltasOf st.head env.remoteHead))]
    rfl
  · simp [isOnDiffEvent]

/-- Witness: with two registered observers and a cycle adding `c.txt` and
removing `a.txt`, each observer is notified exactly once, in order. -/
theorem successful_cycle_notifies_witness :
    substrFound "x sekrit y" "sekrit" ∧
    onDiffEvents (Callback "sekrit" "./repo/" [1, 2] envOk "x sekrit y" ⟨1, 1⟩).2 =
      [Event.onDiff 1 "./repo/" ⟨["c.txt"], ["a.txt"]⟩,
       Event.onDiff 2 "./repo/" ⟨["c.txt"], ["a.txt"]⟩] :=
  ⟨by decide, by
    rw [successful_cycle_notifies "sekrit" "./repo/" [1, 2] envOk "x sekrit y" ⟨1, 1⟩
      (by decide) rfl rfl rfl]
    decide⟩

/-- C5: whenever a cycle performs the hard reset, the reset moves the mirror
to the fetched head and occurs strictly after the diff was computed, and
that diff was computed between the pre-reset head and the fetched head —
never between post-reset states. -/
theorem reset_strictly_after_diff (token path : String) (observers : List Nat)
    (env : Env) (payload : String) (st : RepoState) (k : Nat)
    (h : Event.resetTo k ∈ (Callback token path observers env payload st).2) :
    k = env.remoteHead ∧
    ∃ pre mid post,
      (Callback token path observers env payload st).2 =
        pre ++ [Event.diffComputed st.head env.remoteHead] ++ mid ++
          [Event.resetTo env.remoteHead] ++ post := by
  by_cases hTok : substrFound payload token
  · cases hF : env.fetchFails with
    | true =>
      rw [callback_fetch_fail token path observers env payload st hTok hF] at h
      simp at h
    | false =>
      cases hD : env.diffFails with
      | true =>
        rw [callback_diff_fail token path observers env payload st hTok hF hD] at h
        simp at h
      | false =>
        cases hR : env.resetFails with
        | true =>
          rw [callback_reset_fail token path observers env payload st hTok hF hD hR] at h
          simp at h
        | false =>
          rw [callback_success token path observers env payload st hTok hF hD hR] at h ⊢
          have hmap : Event.resetTo k ∉
              (if !(GetFilesDiff (env.deltasOf st.head env.remoteHead)).removed.isEmpty ||
                  !(GetFilesDiff (env.deltasOf st.head env.remoteHead)).added.isEmpty then
                observers.map (fun o =>
                  Event.onDiff o path (GetFilesDiff (env.deltasOf st.head env.remoteHead)))
              else []) := by
            split <;> simp
          simp only [List.mem_append, hmap, or_false, List.mem_cons,
            List.mem_singleton] at h
          have hk : k = env.remoteHead := by
            rcases h with h | h | h | h | h <;> simp_all
          refine ⟨hk, [Event.logInfo MSG_TRIGGERED, Event.fetched env.remoteHead], [],
            [Event.logInfo MSG_FINISHED] ++
              (if !(GetFilesDiff (env.deltasOf st.head env.remoteHead)).removed.isEmpty ||
                  !(GetFilesDiff (env.deltasOf st.head env.remoteHead)).added.isEmpty then
                observers.map (fun o =>
                  Event.onDiff o path (GetFilesDiff (env.deltasOf st.head env.remoteHead)))
              else []), ?_⟩
          simp
  · rw [callback_reject token path observers env payload st hTok] at h
    simp at h

/-- Witness: in a concrete successful cycle the reset targets the fetched
head 9 and the trace places the diff computation (pre-reset head 1 against
fetched head 9) strictly before it. -/
theorem reset_strictly_after_diff_witness :
    Event.resetTo 9 ∈ (Callback "sekrit" "./repo/" [1] envOk "x sekrit y" ⟨1, 1⟩).2 ∧
    (9 = envOk.remoteHead ∧
      ∃ pre mid post,
        (Callback "sekrit" "./repo/" [1] envOk "x sekrit y" ⟨1, 1⟩).2 =
          pre ++ [Event.diffComputed 1 9] ++ mid ++ [Event.resetTo 9] ++ post) :=
  ⟨by decide,
    reset_strictly_after_diff "sekrit" "./repo/" [1] envOk "x sekrit y" ⟨1, 1⟩ 9
      (by decide)⟩

/-- C6 evaluation: `std::make_shared<std::string>(' ', 255)` selects the
`(count, ch)` constructor with the arguments in swapped roles, so the buffer
offered to the single socket read holds 32 copies of byte 255 — a 32-byte
read budget, not the 255-byte budget the spec states. -/
theorem payload_buffer_is_32_bytes :
    payloadBuffer = List.replicate 32 255 ∧ readBudget = 32 ∧ readBudget ≠ 255 := by
  refine ⟨?_, rfl, by decide⟩
  rfl

/-- C7 counterexample: the bytes handed to the socket on a successful read
are not 17 — `asio::buffer` over the string-literal array also covers the
terminating null character. -/
theorem ack_write_not_17_bytes :
    ¬ ((DoReadHeaderHandler "sekrit" "./repo/" [1] envOk ⟨1, 1⟩ false
        "GET /").1.length = 17) := by
  decide

/-- C7 amended: for every connection whose read succeeds, the listener
writes exactly 18 bytes — the 17 characters of `HTTP/1.0 200 OK\r\n`
followed by the literal's terminating null byte. -/
theorem ack_write_is_literal_with_nul (token path : String) (observers : List Nat)
    (env : Env) (st : RepoState) (payload : String) :
    (DoReadHeaderHandler token path observers env st false payload).1.length = 18 ∧
    (DoReadHeaderHandler token path observers env st false payload).1.take 17 =
      "HTTP/1.0 200 OK\r\n".toList ∧
    (DoReadHeaderHandler token path observers env st false payload).1.getLast? =
      some (Char.ofNat 0) := by
  refine ⟨?_, ?_, ?_⟩ <;> rfl

/-- C8: the acknowledgement precedes payload inspection, so the bytes sent
back over a successfully-read connection are the same for an authorized
payload (token present) and an unauthorized one (token absent) — the
response never reveals the authorization outcome. -/
theorem ack_independent_of_authorization (token path : String) (observers : List Nat)
    (env1 env2 : Env) (st1 st2 : RepoState) (p1 p2 : String)
    (h1 : substrFound p1 token) (h2 : ¬ substrFound p2 token) :
    (DoReadHeaderHandler token path observers env1 st1 false p1).1 =
      (DoReadHeaderHandler token path observers env2 st2 false p2).1 := by
  rfl

/-- Witness: a concrete authorized and a concrete unauthorized payload
receive identical response bytes. -/
theorem ack_independent_of_authorization_witness :
    substrFound "a sekrit b" "sekrit" ∧ ¬ substrFound "nope" "sekrit" ∧
    (DoReadHeaderHandler "sekrit" "./repo/" [1] envOk ⟨1, 1⟩ false "a sekrit b").1 =
      (DoReadHeaderHandler "sekrit" "./repo/" [1] envFetchFail ⟨2, 2⟩ false "nope").1 :=
  ⟨by decide, by decide,
    ack_independent_of_authorization "sekrit" "./repo/" [1] envOk envFetchFail
      ⟨1, 1⟩ ⟨2, 2⟩ "a sekrit b" "nope" (by decide) (by decide)⟩

lemma GetTrackedFiles_eq (index : List String) : GetTrackedFiles index = index := by
  have haux : ∀ (l acc : List String), l.foldl (fun pv e => pv ++ [e]) acc = acc ++ l := by
    intro l
    induction l with
    | nil => intro acc; simp
    | cons e es ih => intro acc; simp [ih]
  simpa using haux index []

/-- C9: `AddObserver` appends the observer to the registry; when the mirror
has tracked files it delivers exactly one `OnAdd` call before returning,
listing all tracked paths in index order (the tracked-file walk reproduces
the index exactly); with no tracked files it delivers no call. -/
theorem add_observer_baseline (observers : List Nat) (index : List String)
    (path : String) (obs : Nat) :
    (AddObserver observers index path obs).1 = observers ++ [obs] ∧
    GetTrackedFiles index = index ∧
    (AddObserver observers index path obs).2 =
      (if index.isEmpty then [] else [Event.onAdd obs path index]) := by
  unfold AddObserver
  rw [GetTrackedFiles_eq index]
  cases index with
  | nil => exact ⟨rfl, rfl, rfl⟩
  | cons e es => exact ⟨rfl, rfl, rfl⟩

/-- C10: for every non-empty input, the guard
`tmp.back() != '/' || tmp.back() != '\\'` is true — a character cannot
differ from neither — so `NormalizeDirPath` unconditionally appends `/`,
even to inputs already ending in `/` or `\`, and the path the engine stores
therefore always ends in `/` (possibly doubling a separator). -/
theorem normalize_always_appends_slash (s : List Char) (h : s ≠ []) :
    ((s.getLast? != some '/') || (s.getLast? != some '\\')) = true ∧
    NormalizeDirPath s = s ++ ['/'] ∧
    (NormalizeDirPath s).getLast? = some '/' := by
  have hg : ((s.getLast? != some '/') || (s.getLast? != some '\\')) = true := by
    cases hl : s.getLast? with
    | none => rfl
    | some c =>
      by_cases hc : c = '/'
      · subst hc
        simp
      · simp [hc]
  have hn : NormalizeDirPath s = s ++ ['/'] := by
    unfold NormalizeDirPath
    rw [if_pos hg]
  refine ⟨hg, hn, ?_⟩
  rw [hn]
  simp

/-- Witness: an input already ending in `/` still gains another `/`. -/
theorem normalize_always_appends_slash_witness :
    "data/".toList ≠ [] ∧
    NormalizeDirPath "data/".toList = "data//".toList ∧
    (NormalizeDirPath "data/".toList).getLast? = some '/' :=
  ⟨by decide,
    (normalize_always_appends_slash "data/".toList (by decide)).2.1.trans (by decide),
    (normalize_always_appends_slash "data/".toList (by decide)).2.2⟩

end Multirole
